import Mathlib

/-!
Verification of the sprocket Vulkan resource-cache and frame-orchestration core.

The definitions below are a shallow embedding of the Rust source:
  - src/sprocket/src/graphics/vulkan/resources.rs  (ResourceSystem, ResourceManager)
  - src/sprocket/src/graphics/vulkan/swapchain.rs  (Swapchain construction policy)
  - src/sprocket/src/graphics/vulkan/renderer.rs   (Renderer::draw_frame)
  - src/sprocket/src/graphics/vulkan/pipeline.rs / material.rs / renderpass.rs (recreate)

Rust HashMap<String, Arc<T>> is embedded as an association list List (String × T) with
lookup; Arc pointer identity is embedded as a numeric id, and Arc::strong_count as an
explicitly carried count. GPU handles and external IO are modelled as opaque values or
oracle functions passed in as parameters.
-/

/-- Association-list lookup; embeds HashMap::get for the String-keyed resource maps. -/
def alookup {T : Type} : List (String × T) → String → Option T
  | [], _ => none
  | (k, v) :: rest, x => if k = x then some v else alookup rest x

/-- Opaque model of the error type sprocket::graphics::Error. -/
abbrev Err := String

/-- Model of a cached resource handle (Arc<T>): id embeds the Arc pointer identity,
strong embeds Arc::strong_count as observed at collection time. -/
structure Res where
  id : Nat
  strong : Nat
deriving DecidableEq, Repr

/-- Model of Garbage<T> (resources.rs lines 10-13): an evicted resource handle together
with its remaining grace cycles. The path is not kept, matching the source. -/
structure Garbage where
  id : Nat
  cycles_remaining : Nat
deriving DecidableEq, Repr

/-- Model of ResourceSystem<T> state (resources.rs lines 49-52): the live map and the
garbage list. -/
structure ResourceSystem where
  resources : List (String × Res)
  garbage : List Garbage
deriving DecidableEq, Repr

/-- Embeds ResourceSystem::load (resources.rs lines 66-80). The loader oracle stands for
T::load(resourcemanager, path). Returns the load result, the resulting live map, and the
number of times T::load was invoked (0 on a cache hit, 1 otherwise). -/
def sysLoad {T : Type} (resources : List (String × T)) (loader : String → Except Err T)
    (path : String) : Except Err T × List (String × T) × Nat :=
  match alookup resources path with
  | some r => (Except.ok r, resources, 0)
  | none =>
    match loader path with
    | Except.ok r => (Except.ok r, (path, r) :: resources, 1)
    | Except.error e => (Except.error e, resources, 1)

/-- Embeds ResourceSystem::collect_garbage (resources.rs lines 94-116), in source order:
first drop garbage entries with cycles_remaining == 0 (retain keeps > 0), then decrement
the survivors by one, then move every live entry whose strong count is exactly 1 into the
garbage list with cycles_remaining = garbage_cycles. Survivors of the retain have
cycles_remaining at least 1, so the Nat subtraction coincides with the u32 subtraction. -/
def ResourceSystem.collect_garbage (s : ResourceSystem) (garbage_cycles : Nat) :
    ResourceSystem :=
  let g1 := s.garbage.filter (fun v => decide (0 < v.cycles_remaining))
  let g2 := g1.map (fun v => { v with cycles_remaining := v.cycles_remaining - 1 })
  let kept := s.resources.filter (fun kv => decide (kv.2.strong ≠ 1))
  let moved := (s.resources.filter (fun kv => decide (kv.2.strong = 1))).map
      (fun kv => { id := kv.2.id, cycles_remaining := garbage_cycles })
  { resources := kept, garbage := g2 ++ moved }

/-- Iterates collect_garbage n times with the same garbage_cycles argument. -/
def ResourceSystem.collect_garbage_iter (s : ResourceSystem) (garbage_cycles : Nat) :
    Nat → ResourceSystem
  | 0 => s
  | n + 1 => (s.collect_garbage garbage_cycles).collect_garbage_iter garbage_cycles n

/-- Model of vk::PresentModeKHR, restricted to the constructors the source mentions. -/
inductive PresentModeKHR where
  | immediate
  | mailbox
  | fifo
  | fifoRelaxed
deriving DecidableEq, Repr

/-- Embeds Swapchain::pick_present_mode (swapchain.rs lines 121-130): scan the supported
modes for MAILBOX and return it when found; otherwise return IMMEDIATE. -/
def pick_present_mode : List PresentModeKHR → PresentModeKHR
  | [] => PresentModeKHR.immediate
  | m :: rest => if m = PresentModeKHR.mailbox then m else pick_present_mode rest

/-- Model of the image-count fields of vk::SurfaceCapabilitiesKHR. -/
structure SurfaceCapabilitiesKHR where
  min_image_count : Nat
  max_image_count : Nat
deriving DecidableEq, Repr

/-- Embeds the image count that Swapchain::new requests (swapchain.rs line 42 together
with line 48): the local is the literal 3 and is passed to min_image_count unchanged.
The queried capabilities are only logged (lines 37-40), never consulted. -/
def swapchain_new_min_image_count (_capabilities : SurfaceCapabilitiesKHR) : Nat := 3

/-- Written from the words of the spec, for comparison with the source definition above:
request a fixed target count of 3 clamped to what the surface capabilities allow, that is
clamped into the interval from min_image_count to max_image_count. -/
def spec_clamped_image_count (capabilities : SurfaceCapabilitiesKHR) : Nat :=
  max capabilities.min_image_count (min 3 capabilities.max_image_count)

/-- Result of Swapchain::acquire_next_image as matched by Renderer::draw_frame
(renderer.rs lines 89-103): success carries the image index and the suboptimal flag;
ERROR_OUT_OF_DATE_KHR and all other errors are distinguished. -/
inductive AcquireResult where
  | ok (image_index : Nat) (suboptimal : Bool)
  | outOfDate
  | otherError
deriving DecidableEq, Repr

/-- Result of Swapchain::present as matched by Renderer::draw_frame (renderer.rs lines
206-220). -/
inductive PresentResult where
  | ok (suboptimal : Bool)
  | outOfDate
  | otherError
deriving DecidableEq, Repr

/-- Observable actions of one Renderer::draw_frame invocation, in the order the source
performs them. recordCommandBuffer stands for the whole begin-record-end block
(renderer.rs lines 114-160). -/
inductive VkEvent where
  | waitFrameFence (slot : Nat)
  | acquireImage
  | recreateRenderer
  | resetCommandBuffer (image : Nat)
  | recordCommandBuffer (image : Nat)
  | waitImageFence (image : Nat)
  | resetFrameFence (slot : Nat)
  | submitCommands (image : Nat)
  | presentImage (image : Nat)
deriving DecidableEq, Repr

/-- Renderer state relevant to frame pacing (renderer.rs lines 15-26): the frame-slot
index, the per-swapchain-image fence tracking array (none embeds vk::Fence::null(), some
slot embeds the in-flight fence of that frame slot), and the frame counter. -/
structure Renderer where
  current_frame : Nat
  images_in_flight : List (Option Nat)
  frame_count : Nat
deriving DecidableEq, Repr

/-- MAX_FRAMES_IN_FLIGHT (renderer.rs line 9). -/
def MAX_FRAMES_IN_FLIGHT : Nat := 2

/-- Embeds Renderer::draw_frame (renderer.rs lines 83-229) as a state transformer that
also emits the trace of observable actions in source order. The acquire and present
results are inputs, standing for the values the swapchain calls return; the command
buffer reset, recording and submit calls are modelled as succeeding (on failure the
iferr macro logs and returns early, a path none of the claims exercises). Source order:
wait on the current slot fence; acquire (recreate and return on out-of-date, return on
other errors, recreate and return on suboptimal); reset and re-record the command buffer
of the acquired image (lines 111-160); only then wait on the tracked per-image fence if
one is set (lines 179-181); record the slot fence as owner of the image (line 183);
reset the slot fence, submit, present; advance the frame slot on full success. -/
def Renderer.draw_frame (st : Renderer) (acquire : AcquireResult)
    (presentResult : PresentResult) : Renderer × List VkEvent :=
  let pre := [VkEvent.waitFrameFence st.current_frame, VkEvent.acquireImage]
  match acquire with
  | AcquireResult.outOfDate => (st, pre ++ [VkEvent.recreateRenderer])
  | AcquireResult.otherError => (st, pre)
  | AcquireResult.ok i suboptimal =>
    if suboptimal then (st, pre ++ [VkEvent.recreateRenderer])
    else
      let recordEvents := [VkEvent.resetCommandBuffer i, VkEvent.recordCommandBuffer i]
      let waitEvents :=
        match st.images_in_flight.getD i none with
        | some _ => [VkEvent.waitImageFence i]
        | none => []
      let st1 := { st with images_in_flight :=
        st.images_in_flight.set i (some st.current_frame) }
      let evs := pre ++ recordEvents ++ waitEvents ++
        [VkEvent.resetFrameFence st.current_frame, VkEvent.submitCommands i,
         VkEvent.presentImage i]
      match presentResult with
      | PresentResult.outOfDate => (st1, evs ++ [VkEvent.recreateRenderer])
      | PresentResult.otherError => (st1, evs)
      | PresentResult.ok psub =>
        if psub then (st1, evs ++ [VkEvent.recreateRenderer])
        else ({ st1 with current_frame := (st1.current_frame + 1) % MAX_FRAMES_IN_FLIGHT,
                         frame_count := st1.frame_count + 1 }, evs)

/-- Decides whether the first occurrence of a strictly precedes the first occurrence of b
in the event list. -/
def occursStrictlyBefore (a b : VkEvent) : List VkEvent → Bool
  | [] => false
  | e :: rest =>
    if e = a then rest.contains b
    else if e = b then false
    else occursStrictlyBefore a b rest

/-- True exactly on the events the spec calls the normal record, submit and present path
of a frame. -/
def VkEvent.isRecordSubmitOrPresent : VkEvent → Bool
  | VkEvent.resetCommandBuffer _ => true
  | VkEvent.recordCommandBuffer _ => true
  | VkEvent.submitCommands _ => true
  | VkEvent.presentImage _ => true
  | _ => false

/-- True exactly on the recreate event. -/
def VkEvent.isRecreate : VkEvent → Bool
  | VkEvent.recreateRenderer => true
  | _ => false

/-- Model of the Swapchain fields ResourceManager::recreate reads (resources.rs lines
261-262): the color format and the depth format, as opaque numerals. -/
structure SwapchainFormats where
  format : Nat
  depth_format : Nat
deriving DecidableEq, Repr

/-- Model of a RenderPass (renderpass.rs lines 97-101): the parsed spec as an opaque
token, the color and depth formats its attachments were built from, and gen, which
embeds the identity of the vk::RenderPass handle: every call to RenderPass::new creates
a fresh handle, modelled by bumping gen. -/
structure RenderPass where
  spec : Nat
  color_format : Nat
  depth_format : Nat
  gen : Nat
deriving DecidableEq, Repr

/-- Embeds RenderPass::recreate (renderpass.rs lines 222-228): Self::new with the same
spec and the new color and depth formats; the fresh vk handle is modelled by gen + 1.
Vulkan object creation is modelled as succeeding; a creation failure aborts the whole
ResourceManager::recreate with the error, a case the claims condition away. -/
def RenderPass.recreate (rp : RenderPass) (color depth : Nat) : RenderPass :=
  { spec := rp.spec, color_format := color, depth_format := depth, gen := rp.gen + 1 }

/-- Model of PipelineSpec (pipeline.rs lines 10-17); the descriptor layouts are omitted
as they do not influence which render pass a pipeline binds. -/
structure PipelineSpec where
  vertex_shader : String
  fragment_shader : String
  geometry_shader : String
  renderpass : String
deriving DecidableEq, Repr

/-- Model of a Pipeline (pipeline.rs lines 19-25): its spec, and the render pass whose
handle was baked into the vk pipeline at construction (pipeline.rs line 200,
render_pass(renderpass.vk())); the source does not keep the Arc, only the handle. -/
structure Pipeline where
  spec : PipelineSpec
  render_pass : RenderPass
deriving DecidableEq, Repr

/-- Embeds Pipeline::new restricted to its resource interactions (pipeline.rs lines
37-225): it loads its render pass through the manager (line 188,
resourcemanager.load_renderpass(&spec.renderpass)), which on a cache miss loads from
disk (modelled by the rpDisk oracle) and inserts into the render-pass map. Returns the
new pipeline and the possibly grown render-pass map. -/
def Pipeline.construct (rps : List (String × RenderPass))
    (rpDisk : String → Except Err RenderPass) (spec : PipelineSpec) :
    Except Err (Pipeline × List (String × RenderPass)) :=
  match sysLoad rps rpDisk spec.renderpass with
  | (Except.error e, _, _) => Except.error e
  | (Except.ok rp, rps', _) => Except.ok ({ spec := spec, render_pass := rp }, rps')

/-- Model of MaterialSpec (material.rs lines 11-12): the path of its pipeline. -/
structure MaterialSpec where
  pipeline : String
deriving DecidableEq, Repr

/-- Model of a Material (material.rs lines 20-21): its spec and the shared pipeline
handle it holds. -/
structure Material where
  spec : MaterialSpec
  pipeline : Pipeline
deriving DecidableEq, Repr

/-- Embeds Material::new restricted to its resource interactions (material.rs line 39,
resourcemanager.load_pipeline(&spec.pipeline)): a cache hit returns the cached pipeline;
a miss parses the pipeline spec from disk (the plDisk oracle models the file read and
parse of Pipeline::load, pipeline.rs lines 28-33) and then runs Pipeline.construct,
inserting the result into the pipeline map. Returns the material and the possibly grown
pipeline and render-pass maps. -/
def Material.construct (pls : List (String × Pipeline)) (rps : List (String × RenderPass))
    (rpDisk : String → Except Err RenderPass) (plDisk : String → Except Err PipelineSpec)
    (spec : MaterialSpec) :
    Except Err (Material × List (String × Pipeline) × List (String × RenderPass)) :=
  match alookup pls spec.pipeline with
  | some p => Except.ok ({ spec := spec, pipeline := p }, pls, rps)
  | none =>
    match plDisk spec.pipeline with
    | Except.error e => Except.error e
    | Except.ok pspec =>
      match Pipeline.construct rps rpDisk pspec with
      | Except.error e => Except.error e
      | Except.ok (p, rps') =>
        Except.ok ({ spec := spec, pipeline := p }, (spec.pipeline, p) :: pls, rps')

/-- Embeds the pipeline block of ResourceManager::recreate (resources.rs lines 279-292):
every cached pipeline is rebuilt via Pipeline::recreate, which is Self::new on the
cloned spec (pipeline.rs lines 241-243) and therefore queries the already replaced
render-pass map; a miss there loads from disk and grows that map, so the map is threaded
through. The first failure aborts with the error, matching collect over Result. -/
def recreate_pipelines (rpDisk : String → Except Err RenderPass) :
    List (String × Pipeline) → List (String × RenderPass) →
    Except Err (List (String × Pipeline) × List (String × RenderPass))
  | [], rps => Except.ok ([], rps)
  | (k, p) :: rest, rps =>
    match Pipeline.construct rps rpDisk p.spec with
    | Except.error e => Except.error e
    | Except.ok (p', rps') =>
      match recreate_pipelines rpDisk rest rps' with
      | Except.error e => Except.error e
      | Except.ok (rest', rps'') => Except.ok ((k, p') :: rest', rps'')

/-- Embeds the material block of ResourceManager::recreate (resources.rs lines 293-306):
every cached material is rebuilt via Material::recreate, which is Self::new on the
cloned spec (material.rs lines 134-136) against the already replaced pipeline map;
misses there can grow both the pipeline and the render-pass maps. -/
def recreate_materials (rpDisk : String → Except Err RenderPass)
    (plDisk : String → Except Err PipelineSpec) :
    List (String × Material) → List (String × Pipeline) → List (String × RenderPass) →
    Except Err (List (String × Material) × List (String × Pipeline) ×
      List (String × RenderPass))
  | [], pls, rps => Except.ok ([], pls, rps)
  | (k, m) :: rest, pls, rps =>
    match Material.construct pls rps rpDisk plDisk m.spec with
    | Except.error e => Except.error e
    | Except.ok (m', pls', rps') =>
      match recreate_materials rpDisk plDisk rest pls' rps' with
      | Except.error e => Except.error e
      | Except.ok (rest', pls'', rps'') => Except.ok ((k, m') :: rest', pls'', rps'')

/-- Model of the ResourceManager fields recreate touches (resources.rs lines 137-146):
the swapchain slot, which starts empty (ResourceManager::new, line 156, sets it to
None), and the render-pass, pipeline and material maps. The texture and model maps are
carried along untouched, as in the source. -/
structure ResourceManager where
  swapchain : Option SwapchainFormats
  textures : List (String × Res)
  models : List (String × Res)
  renderpasses : List (String × RenderPass)
  pipelines : List (String × Pipeline)
  materials : List (String × Material)
deriving DecidableEq, Repr

/-- Embeds ResourceManager::recreate (resources.rs lines 257-308). The result none
models the program aborting at the unwrap of the empty swapchain slot on line 259; with
a swapchain set the body runs: first the render-pass map is rebuilt from the swapchain
formats and replaced, then the pipeline map is rebuilt against the new render-pass map
and replaced, then the material map is rebuilt against the new pipeline map and
replaced, each step aborting the whole call on the first error. -/
def ResourceManager.recreate (m : ResourceManager)
    (rpDisk : String → Except Err RenderPass)
    (plDisk : String → Except Err PipelineSpec) :
    Option (Except Err ResourceManager) :=
  match m.swapchain with
  | none => none
  | some sc =>
    some (
      match recreate_pipelines rpDisk m.pipelines
          (m.renderpasses.map (fun kv => (kv.1, kv.2.recreate sc.format sc.depth_format))) with
      | Except.error e => Except.error e
      | Except.ok (new_pipelines, rps2) =>
        match recreate_materials rpDisk plDisk m.materials new_pipelines rps2 with
        | Except.error e => Except.error e
        | Except.ok (new_materials, pls2, rps3) =>
          Except.ok { m with renderpasses := rps3, pipelines := pls2,
                             materials := new_materials })

/-- Lookup monotonicity between two maps: every binding visible in the first map is
visible unchanged in the second. Cache-miss insertions of fresh keys have this property. -/
def lookupGrows {T : Type} (a b : List (String × T)) : Prop :=
  ∀ x v, alookup a x = some v → alookup b x = some v

/-- Consistency of a pipeline map with a render-pass map: every cached pipeline binds
exactly the render pass stored under its spec path. -/
def PipeInv (pls : List (String × Pipeline)) (rps : List (String × RenderPass)) : Prop :=
  ∀ k p, (k, p) ∈ pls → alookup rps p.spec.renderpass = some p.render_pass

/-- Concrete render pass used to exercise the recreate theorems: built from spec token
7 with color format 1 and depth format 2, first handle generation. -/
def exampleRenderPass : RenderPass := RenderPass.mk 7 1 2 0

/-- Concrete pipeline spec whose render pass lives at the path rp.json. -/
def examplePipelineSpec : PipelineSpec :=
  PipelineSpec.mk "shader.vert.spv" "shader.frag.spv" "" "rp.json"

/-- Concrete pipeline bound to exampleRenderPass. -/
def examplePipeline : Pipeline := Pipeline.mk examplePipelineSpec exampleRenderPass

/-- Concrete material whose pipeline lives at the path pl.json. -/
def exampleMaterial : Material :=
  Material.mk (MaterialSpec.mk "pl.json") examplePipeline

/-- Concrete manager with a swapchain of formats 10 and 11 and one render pass, one
pipeline and one material cached under matching paths. -/
def exampleManager : ResourceManager :=
  ResourceManager.mk (some (SwapchainFormats.mk 10 11)) [] []
    [("rp.json", exampleRenderPass)] [("pl.json", examplePipeline)]
    [("mat.json", exampleMaterial)]

/-- Concrete manager in its initial state: the swapchain slot still empty. -/
def exampleManagerNoSwapchain : ResourceManager :=
  ResourceManager.mk none [] [] [] [] []

/-- Disk oracle on which every render-pass file read fails. -/
def missingFileRenderPass : String → Except Err RenderPass :=
  fun _ => Except.error "missing file"

/-- Disk oracle on which every pipeline spec file read fails. -/
def missingFilePipelineSpec : String → Except Err PipelineSpec :=
  fun _ => Except.error "missing file"

/-- The manager exampleManager.recreate produces: the render pass rebuilt with the
swapchain formats 10 and 11 and a fresh handle generation, the pipeline rebuilt against
that new render pass, and the material rebuilt against that new pipeline. -/
def exampleManagerRecreated : ResourceManager :=
  ResourceManager.mk (some (SwapchainFormats.mk 10 11)) [] []
    [("rp.json", RenderPass.mk 7 10 11 1)]
    [("pl.json", Pipeline.mk examplePipelineSpec (RenderPass.mk 7 10 11 1))]
    [("mat.json", Material.mk (MaterialSpec.mk "pl.json")
      (Pipeline.mk examplePipelineSpec (RenderPass.mk 7 10 11 1)))]

/-! ## Helper lemmas -/

/-- Looking a key up in a value-mapped association list is mapping the lookup result. -/
theorem alookup_map {α β : Type} (f : α → β) :
    ∀ (l : List (String × α)) (x : String),
      alookup (l.map (fun kv => (kv.1, f kv.2))) x = (alookup l x).map f
  | [], _ => rfl
  | (k, v) :: rest, x => by
    by_cases h : k = x
    · simp [alookup, h]
    · simp [alookup, h, alookup_map f rest x]

/-- A successful sysLoad only ever adds a binding for a previously absent key, so every
previous binding stays visible, and afterwards the requested key is bound to the
returned value. -/
theorem sysLoad_ok_grows {T : Type} {rps rps' : List (String × T)}
    {d : String → Except Err T} {path : String} {rp : T} {n : Nat}
    (h : sysLoad rps d path = (Except.ok rp, rps', n)) :
    lookupGrows rps rps' ∧ alookup rps' path = some rp := by
  unfold sysLoad at h
  cases hl : alookup rps path with
  | some r =>
    rw [hl] at h
    simp only [Prod.mk.injEq, Except.ok.injEq] at h
    obtain ⟨h1, h2, -⟩ := h
    subst h1; subst h2
    exact ⟨fun x v hv => hv, hl⟩
  | none =>
    rw [hl] at h
    cases hd : d path with
    | error e => rw [hd] at h; simp at h
    | ok r =>
      rw [hd] at h
      simp only [Prod.mk.injEq, Except.ok.injEq] at h
      obtain ⟨h1, h2, -⟩ := h
      subst h1; subst h2
      refine ⟨?_, ?_⟩
      · intro x v hv
        by_cases hpx : path = x
        · rw [← hpx] at hv; rw [hl] at hv; exact absurd hv (by simp)
        · simpa [alookup, hpx] using hv
      · simp [alookup]

/-- A successfully constructed pipeline keeps the requested spec, and its render pass is
exactly the one stored under its spec path in the returned render-pass map, which only
grows. -/
theorem pipeline_construct_ok {rps rps' : List (String × RenderPass)}
    {d : String → Except Err RenderPass} {spec : PipelineSpec} {p : Pipeline}
    (h : Pipeline.construct rps d spec = Except.ok (p, rps')) :
    lookupGrows rps rps' ∧ p.spec = spec ∧
      alookup rps' p.spec.renderpass = some p.render_pass := by
  unfold Pipeline.construct at h
  rcases hsl : sysLoad rps d spec.renderpass with ⟨res, rps1, n⟩
  rw [hsl] at h
  cases res with
  | error e => simp at h
  | ok rp =>
    simp only [Except.ok.injEq, Prod.mk.injEq] at h
    obtain ⟨h1, h2⟩ := h
    subst h2
    obtain ⟨hg, hl⟩ := sysLoad_ok_grows hsl
    subst h1
    exact ⟨hg, rfl, hl⟩

/-- Lookup consistency of a pipeline map with a render-pass map survives growing the
render-pass map. -/
theorem PipeInv.mono {pls : List (String × Pipeline)}
    {rps rps' : List (String × RenderPass)} (hg : lookupGrows rps rps')
    (hinv : PipeInv pls rps) : PipeInv pls rps' :=
  fun k p hp => hg _ _ (hinv k p hp)

/-- The pipeline block of recreate only grows the render-pass map further, and every
pipeline it outputs binds the render pass stored under its spec path in the final
render-pass map. -/
theorem recreate_pipelines_ok {d : String → Except Err RenderPass} :
    ∀ (pls : List (String × Pipeline)) (rps : List (String × RenderPass))
      (pls' : List (String × Pipeline)) (rps'' : List (String × RenderPass)),
      recreate_pipelines d pls rps = Except.ok (pls', rps'') →
      lookupGrows rps rps'' ∧ PipeInv pls' rps''
  | [], rps, pls', rps'', h => by
    simp only [recreate_pipelines, Except.ok.injEq, Prod.mk.injEq] at h
    obtain ⟨h1, h2⟩ := h
    subst h1; subst h2
    exact ⟨fun x v hv => hv, fun k p hp => absurd hp (List.not_mem_nil _)⟩
  | (k, p) :: rest, rps, pls', rps'', h => by
    unfold recreate_pipelines at h
    cases hc : Pipeline.construct rps d p.spec with
    | error e => rw [hc] at h; simp at h
    | ok pr =>
      obtain ⟨p', rps1⟩ := pr
      rw [hc] at h
      dsimp only at h
      cases hr : recreate_pipelines d rest rps1 with
      | error e => rw [hr] at h; simp at h
      | ok rr =>
        obtain ⟨rest', rps2⟩ := rr
        rw [hr] at h
        simp only [Except.ok.injEq, Prod.mk.injEq] at h
        obtain ⟨h1, h2⟩ := h
        subst h1; subst h2
        obtain ⟨hg1, -, hl1⟩ := pipeline_construct_ok hc
        obtain ⟨hg2, hinv⟩ := recreate_pipelines_ok rest rps1 rest' _ hr
        refine ⟨fun x v hv => hg2 x v (hg1 x v hv), ?_⟩
        intro k2 p2 hp2
        rcases List.mem_cons.mp hp2 with heq | hmem
        · obtain ⟨-, hp⟩ := Prod.mk.injEq .. ▸ heq
          subst hp
          exact hg2 _ _ hl1
        · exact hinv k2 p2 hmem

/-- A successfully constructed material grows both maps consistently: if every cached
pipeline bound its stored render pass before, the same holds afterwards, including for a
pipeline freshly loaded on a cache miss. -/
theorem material_construct_ok {pls pls' : List (String × Pipeline)}
    {rps rps' : List (String × RenderPass)} {d1 : String → Except Err RenderPass}
    {d2 : String → Except Err PipelineSpec} {spec : MaterialSpec} {m' : Material}
    (hinv : PipeInv pls rps)
    (h : Material.construct pls rps d1 d2 spec = Except.ok (m', pls', rps')) :
    lookupGrows rps rps' ∧ PipeInv pls' rps' := by
  unfold Material.construct at h
  cases hl : alookup pls spec.pipeline with
  | some p =>
    rw [hl] at h
    simp only [Except.ok.injEq, Prod.mk.injEq] at h
    obtain ⟨-, h2, h3⟩ := h
    subst h2; subst h3
    exact ⟨fun x v hv => hv, hinv⟩
  | none =>
    rw [hl] at h
    dsimp only at h
    cases hd : d2 spec.pipeline with
    | error e => rw [hd] at h; simp at h
    | ok pspec =>
      rw [hd] at h
      dsimp only at h
      cases hc : Pipeline.construct rps d1 pspec with
      | error e => rw [hc] at h; simp at h
      | ok pr =>
        obtain ⟨p, rps1⟩ := pr
        rw [hc] at h
        dsimp only at h
        simp only [Except.ok.injEq, Prod.mk.injEq] at h
        obtain ⟨-, h2, h3⟩ := h
        subst h2; subst h3
        obtain ⟨hg, -, hl1⟩ := pipeline_construct_ok hc
        refine ⟨hg, ?_⟩
        intro k2 p2 hmem
        rcases List.mem_cons.mp hmem with heq | hmem2
        · obtain ⟨-, hp⟩ := Prod.mk.injEq .. ▸ heq
          subst hp
          exact hl1
        · exact hg _ _ (hinv k2 p2 hmem2)

/-- The material block of recreate only grows the render-pass map further and keeps the
pipeline map consistent with it. -/
theorem recreate_materials_ok {d1 : String → Except Err RenderPass}
    {d2 : String → Except Err PipelineSpec} :
    ∀ (mats : List (String × Material)) (pls : List (String × Pipeline))
      (rps : List (String × RenderPass)) (mats' : List (String × Material))
      (pls' : List (String × Pipeline)) (rps' : List (String × RenderPass)),
      PipeInv pls rps →
      recreate_materials d1 d2 mats pls rps = Except.ok (mats', pls', rps') →
      lookupGrows rps rps' ∧ PipeInv pls' rps'
  | [], pls, rps, mats', pls', rps', hinv, h => by
    simp only [recreate_materials, Except.ok.injEq, Prod.mk.injEq] at h
    obtain ⟨-, h2, h3⟩ := h
    subst h2; subst h3
    exact ⟨fun x v hv => hv, hinv⟩
  | (k, mt) :: rest, pls, rps, mats', pls', rps', hinv, h => by
    unfold recreate_materials at h
    cases hc : Material.construct pls rps d1 d2 mt.spec with
    | error e => rw [hc] at h; simp at h
    | ok mr =>
      obtain ⟨m1, pls1, rps1⟩ := mr
      rw [hc] at h
      dsimp only at h
      cases hr : recreate_materials d1 d2 rest pls1 rps1 with
      | error e => rw [hr] at h; simp at h
      | ok rr =>
        obtain ⟨rest', pls2, rps2⟩ := rr
        rw [hr] at h
        simp only [Except.ok.injEq, Prod.mk.injEq] at h
        obtain ⟨-, h2, h3⟩ := h
        subst h2; subst h3
        obtain ⟨hg1, hinv1⟩ := material_construct_ok hinv hc
        obtain ⟨hg2, hinv2⟩ := recreate_materials_ok rest pls1 rps1 rest' _ _ hinv1 hr
        exact ⟨fun x v hv => hg2 x v (hg1 x v hv), hinv2⟩

/-- One collect_garbage pass keeps a live entry whose strong count is at least 2, keeps
the hypothesis set stable, and never lets its handle id enter the garbage list. -/
theorem collect_garbage_keeps_held (s : ResourceSystem) (c : Nat) (p : String) (r : Res)
    (hmem : (p, r) ∈ s.resources)
    (hres : ∀ q r', (q, r') ∈ s.resources → r'.id = r.id → 2 ≤ r'.strong)
    (hgar : ∀ g ∈ s.garbage, g.id ≠ r.id) :
    (p, r) ∈ (s.collect_garbage c).resources ∧
    (∀ q r', (q, r') ∈ (s.collect_garbage c).resources → r'.id = r.id → 2 ≤ r'.strong) ∧
    (∀ g ∈ (s.collect_garbage c).garbage, g.id ≠ r.id) := by
  have hstrong : 2 ≤ r.strong := hres p r hmem rfl
  refine ⟨?_, ?_, ?_⟩
  · refine List.mem_filter.mpr ⟨hmem, ?_⟩
    simp only [decide_eq_true_eq]
    omega
  · intro q r' hq hid
    exact hres q r' (List.mem_filter.mp hq).1 hid
  · intro g hg
    rcases List.mem_append.mp hg with hold | hnew
    · obtain ⟨v, hv, hveq⟩ := List.mem_map.mp hold
      have hvid := hgar v (List.mem_filter.mp hv).1
      rw [← hveq]
      exact hvid
    · obtain ⟨kv, hkv, hkveq⟩ := List.mem_map.mp hnew
      have hone : kv.2.strong = 1 := by
        have := (List.mem_filter.mp hkv).2
        simpa using this
      intro hid
      have hkvid : kv.2.id = r.id := by rw [← hkveq] at hid; exact hid
      have := hres kv.1 kv.2 (by
        have := (List.mem_filter.mp hkv).1
        simpa using this) hkvid
      omega

/-! ## Claim theorems -/

/-- C1 counterexample. A resource cached with no external holder (strong count 1, only
the cache reference) is moved to the garbage list by collect_garbage(2); after exactly 2
further collect_garbage calls the entry is still in the garbage list, sitting at
cycles_remaining = 0, so the claim that it is fully removed after exactly 2 further
calls is false: the source drops zero-cycle entries at the start of the next pass, after
the pass that decremented them to 0. -/
theorem collect_garbage_entry_survives_two_further_passes :
    ((((ResourceSystem.mk [("res", Res.mk 0 1)] []).collect_garbage 2).collect_garbage
        2).collect_garbage 2) =
      ResourceSystem.mk [] [Garbage.mk 0 0] ∧
    ((((ResourceSystem.mk [("res", Res.mk 0 1)] []).collect_garbage 2).collect_garbage
        2).collect_garbage 2).garbage ≠ [] := by
  exact ⟨rfl, by decide⟩

/-- C1 amended. For a resource cached once with no external holder, the first
collect_garbage(2) call moves it from the live map into the garbage list with
cycles_remaining = 2; each of the next two calls decrements cycles_remaining by exactly
1 (2 to 1 to 0); the entry is purged on the pass after its counter reaches 0, so it is
fully removed after exactly 3 further collect_garbage calls, never resurrected. -/
theorem collect_garbage_countdown_and_purge (p : String) (i : Nat) :
    ((ResourceSystem.mk [(p, Res.mk i 1)] []).collect_garbage 2).resources = [] ∧
    ((ResourceSystem.mk [(p, Res.mk i 1)] []).collect_garbage 2).garbage =
      [Garbage.mk i 2] ∧
    (((ResourceSystem.mk [(p, Res.mk i 1)] []).collect_garbage 2).collect_garbage
        2).garbage = [Garbage.mk i 1] ∧
    ((((ResourceSystem.mk [(p, Res.mk i 1)] []).collect_garbage 2).collect_garbage
        2).collect_garbage 2).garbage = [Garbage.mk i 0] ∧
    (((((ResourceSystem.mk [(p, Res.mk i 1)] []).collect_garbage 2).collect_garbage
        2).collect_garbage 2).collect_garbage 2) = ResourceSystem.mk [] [] := by
  exact ⟨rfl, rfl, rfl, rfl, rfl⟩

/-- C3. When the path is already cached, ResourceSystem::load returns the cached shared
handle itself (the clone of the existing Arc), does not invoke T::load (invocation count
0), and leaves the live map unchanged, so the live-entry count does not increase. -/
theorem load_cached_returns_existing_handle {T : Type} (resources : List (String × T))
    (loader : String → Except Err T) (path : String) (r : T)
    (h : alookup resources path = some r) :
    sysLoad resources loader path = (Except.ok r, resources, 0) ∧
    (sysLoad resources loader path).2.1.length = resources.length := by
  unfold sysLoad
  rw [h]
  exact ⟨rfl, rfl⟩

/-- C3 witness: loading a path that is cached returns the cached handle with the map
unchanged and zero loader invocations. -/
theorem load_cached_returns_existing_handle_witness :
    alookup [("a", Res.mk 1 1)] "a" = some (Res.mk 1 1) ∧
    sysLoad [("a", Res.mk 1 1)] (fun _ => Except.error "io") "a" =
      (Except.ok (Res.mk 1 1), [("a", Res.mk 1 1)], 0) :=
  ⟨by decide,
   (load_cached_returns_existing_handle [("a", Res.mk 1 1)] (fun _ => Except.error "io")
      "a" (Res.mk 1 1) (by decide)).1⟩

/-- C4. A cached resource with strong count at least 2 (some holder besides the cache),
whose handle id is carried by no garbage entry and by no other live entry with strong
count 1, survives any number of collect_garbage passes in the live map and its handle
never appears in the garbage list, hence is never purged from it. -/
theorem held_resource_never_collected (s : ResourceSystem) (c n : Nat) (p : String)
    (r : Res)
    (hmem : (p, r) ∈ s.resources)
    (hres : ∀ q r', (q, r') ∈ s.resources → r'.id = r.id → 2 ≤ r'.strong)
    (hgar : ∀ g ∈ s.garbage, g.id ≠ r.id) :
    (p, r) ∈ (s.collect_garbage_iter c n).resources ∧
    ∀ g ∈ (s.collect_garbage_iter c n).garbage, g.id ≠ r.id := by
  induction n generalizing s with
  | zero => exact ⟨hmem, hgar⟩
  | succ n ih =>
    obtain ⟨h1, h2, h3⟩ := collect_garbage_keeps_held s c p r hmem hres hgar
    exact ih (s.collect_garbage c) h1 h2 h3

/-- C4 witness: a resource held by cache plus one external holder is still live and out
of the garbage list after 3 collect_garbage(2) passes. -/
theorem held_resource_never_collected_witness :
    ("tex", Res.mk 5 2) ∈
      ((ResourceSystem.mk [("tex", Res.mk 5 2)] []).collect_garbage_iter 2 3).resources ∧
    ∀ g ∈ ((ResourceSystem.mk [("tex", Res.mk 5 2)] []).collect_garbage_iter 2
        3).garbage, g.id ≠ 5 :=
  held_resource_never_collected (ResourceSystem.mk [("tex", Res.mk 5 2)] []) 2 3 "tex"
    (Res.mk 5 2) (by decide)
    (by
      intro q r' hq hid
      simp only [List.mem_singleton, Prod.mk.injEq] at hq
      obtain ⟨-, rfl⟩ := hq
      decide)
    (by decide)

/-- C5. When the path is absent from the cache and T::load fails, ResourceSystem::load
propagates exactly that error and the live map is returned unchanged: no entry inserted,
no entry removed. -/
theorem load_failure_leaves_cache_unchanged {T : Type} (resources : List (String × T))
    (loader : String → Except Err T) (path : String) (e : Err)
    (h1 : alookup resources path = none) (h2 : loader path = Except.error e) :
    sysLoad resources loader path = (Except.error e, resources, 1) := by
  unfold sysLoad
  rw [h1, h2]

/-- C5 witness: a failing load of an uncached path propagates the error and leaves the
one-entry cache exactly as it was. -/
theorem load_failure_leaves_cache_unchanged_witness :
    sysLoad [("a", Res.mk 1 1)] (fun _ => Except.error "missing file") "b" =
      (Except.error "missing file", [("a", Res.mk 1 1)], 1) :=
  load_failure_leaves_cache_unchanged [("a", Res.mk 1 1)]
    (fun _ => Except.error "missing file") "b" "missing file" (by decide) rfl

/-- C6. When acquire_next_image reports ERROR_OUT_OF_DATE_KHR, draw_frame emits exactly
the frame-fence wait, the acquire call and one recreate, leaves the renderer state
untouched, performs the recreate path exactly once, and performs zero command-buffer
recording, submission or present actions for that invocation. -/
theorem out_of_date_acquire_recreates_once_and_returns (st : Renderer)
    (presentResult : PresentResult) :
    (st.draw_frame AcquireResult.outOfDate presentResult).2 =
      [VkEvent.waitFrameFence st.current_frame, VkEvent.acquireImage,
       VkEvent.recreateRenderer] ∧
    (st.draw_frame AcquireResult.outOfDate presentResult).1 = st ∧
    ((st.draw_frame AcquireResult.outOfDate presentResult).2.countP
      VkEvent.isRecreate) = 1 ∧
    ((st.draw_frame AcquireResult.outOfDate presentResult).2.countP
      VkEvent.isRecordSubmitOrPresent) = 0 :=
  ⟨rfl, rfl, rfl, rfl⟩

/-- C2 divergence, evaluated at a failing input. With frame slot 0 current, three
swapchain images and image 0 still owned by the in-flight fence of slot 1 (non-null
entry in the tracking array), a draw_frame that acquires image 0 resets and re-records
the command buffer of image 0 strictly before it waits on the tracked fence of image 0:
the wait happens only between recording and submission (renderer.rs lines 179-181 come
after lines 111-160), so the claimed wait-before-re-record order does not hold. -/
theorem draw_frame_rerecords_before_image_fence_wait :
    ((Renderer.mk 0 [some 1, none, none] 0).draw_frame (AcquireResult.ok 0 false)
        (PresentResult.ok false)).2 =
      [VkEvent.waitFrameFence 0, VkEvent.acquireImage, VkEvent.resetCommandBuffer 0,
       VkEvent.recordCommandBuffer 0, VkEvent.waitImageFence 0, VkEvent.resetFrameFence 0,
       VkEvent.submitCommands 0, VkEvent.presentImage 0] ∧
    occursStrictlyBefore (VkEvent.resetCommandBuffer 0) (VkEvent.waitImageFence 0)
      ((Renderer.mk 0 [some 1, none, none] 0).draw_frame (AcquireResult.ok 0 false)
        (PresentResult.ok false)).2 = true ∧
    occursStrictlyBefore (VkEvent.waitImageFence 0) (VkEvent.resetCommandBuffer 0)
      ((Renderer.mk 0 [some 1, none, none] 0).draw_frame (AcquireResult.ok 0 false)
        (PresentResult.ok false)).2 = false := by
  exact ⟨rfl, by decide, by decide⟩

/-- C8 counterexample. With FIFO as the only supported mode (MAILBOX absent),
pick_present_mode returns IMMEDIATE, not the mandatory guaranteed FIFO mode the claim
names as the fallback. -/
theorem pick_present_mode_fallback_is_not_fifo :
    pick_present_mode [PresentModeKHR.fifo] = PresentModeKHR.immediate ∧
    pick_present_mode [PresentModeKHR.fifo] ≠ PresentModeKHR.fifo := by
  decide

/-- C8 amended. Swapchain construction selects MAILBOX whenever it is among the
supported present modes, and otherwise selects IMMEDIATE (not FIFO). -/
theorem pick_present_mode_mailbox_else_immediate (modes : List PresentModeKHR) :
    (PresentModeKHR.mailbox ∈ modes →
      pick_present_mode modes = PresentModeKHR.mailbox) ∧
    (PresentModeKHR.mailbox ∉ modes →
      pick_present_mode modes = PresentModeKHR.immediate) := by
  induction modes with
  | nil => exact ⟨fun h => absurd h (List.not_mem_nil _), fun _ => rfl⟩
  | cons m rest ih =>
    constructor
    · intro h
      by_cases hm : m = PresentModeKHR.mailbox
      · simp [pick_present_mode, hm]
      · have hrest : PresentModeKHR.mailbox ∈ rest := by
          rcases List.mem_cons.mp h with h1 | h1
          · exact absurd h1.symm hm
          · exact h1
        simp [pick_present_mode, hm, ih.1 hrest]
    · intro h
      have hm : m ≠ PresentModeKHR.mailbox :=
        fun he => h (he ▸ List.mem_cons_self m rest)
      have hrest : PresentModeKHR.mailbox ∉ rest :=
        fun hr => h (List.mem_cons_of_mem m hr)
      simp [pick_present_mode, hm, ih.2 hrest]

/-- C8 amended witness: MAILBOX is chosen when present, IMMEDIATE when absent. -/
theorem pick_present_mode_mailbox_else_immediate_witness :
    pick_present_mode [PresentModeKHR.fifo, PresentModeKHR.mailbox] =
      PresentModeKHR.mailbox ∧
    pick_present_mode [PresentModeKHR.fifoRelaxed] = PresentModeKHR.immediate :=
  ⟨(pick_present_mode_mailbox_else_immediate
      [PresentModeKHR.fifo, PresentModeKHR.mailbox]).1 (by decide),
   (pick_present_mode_mailbox_else_immediate [PresentModeKHR.fifoRelaxed]).2
      (by decide)⟩

/-- C9 counterexample. For surface capabilities demanding at least 4 images, the image
count Swapchain::new requests is still 3, while the claimed clamp of the fixed target 3
into the capability range is 4: the source performs no clamping at all. -/
theorem requested_image_count_is_not_clamped :
    swapchain_new_min_image_count (SurfaceCapabilitiesKHR.mk 4 8) = 3 ∧
    spec_clamped_image_count (SurfaceCapabilitiesKHR.mk 4 8) = 4 ∧
    swapchain_new_min_image_count (SurfaceCapabilitiesKHR.mk 4 8) ≠
      spec_clamped_image_count (SurfaceCapabilitiesKHR.mk 4 8) := by
  decide

/-- C9 amended. The image count Swapchain::new requests is the fixed target 3 for every
surface capabilities value, without clamping: in particular it can lie strictly below
the minimum the capabilities allow. -/
theorem requested_image_count_fixed_at_three (capabilities : SurfaceCapabilitiesKHR) :
    swapchain_new_min_image_count capabilities = 3 ∧
    swapchain_new_min_image_count (SurfaceCapabilitiesKHR.mk 4 8) <
      (SurfaceCapabilitiesKHR.mk 4 8).min_image_count :=
  ⟨rfl, by decide⟩

/-- C7. After a successful ResourceManager::recreate, which rebuilds the render-pass
map, then the pipeline map, then the material map in that dependency order, every
pipeline in the resulting pipeline map binds exactly the render pass stored in the
resulting render-pass map under its spec path; and whenever that path was cached before
the call, the bound render pass is the rebuilt object (the old one recreated with the
current swapchain formats, carrying a fresh handle) and is distinct from the
pre-recreate object. -/
theorem recreate_rebuilds_in_dependency_order (m m' : ResourceManager)
    (rpDisk : String → Except Err RenderPass)
    (plDisk : String → Except Err PipelineSpec) (k : String) (p : Pipeline)
    (hrec : m.recreate rpDisk plDisk = some (Except.ok m'))
    (hmem : (k, p) ∈ m'.pipelines) :
    alookup m'.renderpasses p.spec.renderpass = some p.render_pass ∧
    ∀ sc rpOld, m.swapchain = some sc →
      alookup m.renderpasses p.spec.renderpass = some rpOld →
      p.render_pass = rpOld.recreate sc.format sc.depth_format ∧
        p.render_pass ≠ rpOld := by
  unfold ResourceManager.recreate at hrec
  cases hsw : m.swapchain with
  | none => rw [hsw] at hrec; simp at hrec
  | some sc0 =>
    rw [hsw] at hrec
    dsimp only at hrec
    cases hrp : recreate_pipelines rpDisk m.pipelines
        (m.renderpasses.map
          (fun kv => (kv.1, kv.2.recreate sc0.format sc0.depth_format))) with
    | error e => rw [hrp] at hrec; simp at hrec
    | ok pr =>
      obtain ⟨pls1, rps2⟩ := pr
      rw [hrp] at hrec
      dsimp only at hrec
      cases hrm : recreate_materials rpDisk plDisk m.materials pls1 rps2 with
      | error e => rw [hrm] at hrec; simp at hrec
      | ok mr =>
        obtain ⟨mats1, pls2, rps3⟩ := mr
        rw [hrm] at hrec
        simp only [Option.some.injEq, Except.ok.injEq] at hrec
        subst hrec
        obtain ⟨hg1, hinv1⟩ := recreate_pipelines_ok m.pipelines _ pls1 rps2 hrp
        obtain ⟨hg2, hinv2⟩ :=
          recreate_materials_ok m.materials pls1 rps2 mats1 pls2 rps3 hinv1 hrm
        refine ⟨hinv2 k p hmem, ?_⟩
        intro sc rpOld hsc hold
        injection hsc with hsc0
        subst hsc0
        have h1 : alookup
            (m.renderpasses.map
              (fun kv => (kv.1, kv.2.recreate sc0.format sc0.depth_format)))
            p.spec.renderpass = some (rpOld.recreate sc0.format sc0.depth_format) := by
          have hm := alookup_map
            (fun rp => RenderPass.recreate rp sc0.format sc0.depth_format)
            m.renderpasses p.spec.renderpass
          rw [hold] at hm
          exact hm
        have h2 := hg2 _ _ (hg1 _ _ h1)
        have h3 := hinv2 k p hmem
        rw [h3] at h2
        injection h2 with h4
        refine ⟨h4, ?_⟩
        rw [h4]
        intro heq
        have hgen := congrArg RenderPass.gen heq
        simp only [RenderPass.recreate] at hgen
        omega

/-- C7 witness: on the concrete one-entry manager, recreate succeeds, the new pipeline
binds the render pass stored under rp.json in the new map, and that render pass is the
old one rebuilt with the new formats, distinct from the old object. -/
theorem recreate_rebuilds_in_dependency_order_witness :
    alookup exampleManagerRecreated.renderpasses "rp.json" =
      some (RenderPass.mk 7 10 11 1) ∧
    RenderPass.mk 7 10 11 1 = exampleRenderPass.recreate 10 11 ∧
    RenderPass.mk 7 10 11 1 ≠ exampleRenderPass := by
  have h := recreate_rebuilds_in_dependency_order exampleManager exampleManagerRecreated
    missingFileRenderPass missingFilePipelineSpec "pl.json"
    (Pipeline.mk examplePipelineSpec (RenderPass.mk 7 10 11 1)) rfl
    (List.mem_singleton.mpr rfl)
  obtain ⟨h1, h2⟩ := h
  obtain ⟨h3, h4⟩ := h2 (SwapchainFormats.mk 10 11) exampleRenderPass rfl (by decide)
  exact ⟨h1, h3, h4⟩

/-- C10. ResourceManager::recreate unwraps the swapchain slot: when the slot is still in
its initial empty state the call aborts at the unwrap (modelled by the none result)
instead of returning an error; whenever a swapchain has been set the unwrap succeeds and
recreate runs its body. -/
theorem recreate_requires_swapchain (m : ResourceManager)
    (rpDisk : String → Except Err RenderPass)
    (plDisk : String → Except Err PipelineSpec) :
    (m.swapchain = none → m.recreate rpDisk plDisk = none) ∧
    (∀ sc, m.swapchain = some sc → (m.recreate rpDisk plDisk).isSome = true) := by
  constructor
  · intro h
    unfold ResourceManager.recreate
    rw [h]
  · intro sc h
    unfold ResourceManager.recreate
    rw [h]
    rfl

/-- C10 witness: with the swapchain slot empty recreate aborts, and with a swapchain set
it returns a result. -/
theorem recreate_requires_swapchain_witness :
    exampleManagerNoSwapchain.recreate missingFileRenderPass missingFilePipelineSpec =
      none ∧
    (exampleManager.recreate missingFileRenderPass
      missingFilePipelineSpec).isSome = true :=
  ⟨(recreate_requires_swapchain exampleManagerNoSwapchain missingFileRenderPass
      missingFilePipelineSpec).1 rfl,
   (recreate_requires_swapchain exampleManager missingFileRenderPass
      missingFilePipelineSpec).2 (SwapchainFormats.mk 10 11) rfl⟩
